import Mathlib

/-!
Verification of the heavyfamily aggregator core against its specification.

The development shallowly embeds the Python sources:

* `src/heavy/concurrency_throttler.py` — the token-bucket `ConcurrencyThrottler`
  (`refill_capacity`, `acquire`, `note_rate_limit_error`), with Python floats
  modelled as rationals and `time.time()` passed explicitly.
* `src/heavy/aggregator_hpc_async.py` — the DeFiLlama fetch retry loop,
  `augment_pool_features`, `prune_pool`, `final_score_formula` (with
  `math.log10` modelled as `Real.logb 10`) and `rank_pools`.
* `src/heavy/agents/risk_agent.py` — `assess_token` and its three sub-checks.

Python keyword-argument binding matters here: every caller invokes
`acquire(num_tokens=...)` although the method signature is
`acquire(self, tokens_needed)`, so each such call raises `TypeError` before the
throttler is consulted; the embedding models this binding explicitly.
-/

/-- Keyword used at an `acquire(...)` call site.  The method is declared as
`async def acquire(self, tokens_needed: int)`, so binding any other keyword
raises `TypeError` at call time. -/
inductive AcquireKw where
  | tokens_needed : AcquireKw
  | num_tokens : AcquireKw
deriving DecidableEq

/-- Whether a Python call `throttler.acquire(kw=...)` raises `TypeError`:
it does exactly when the keyword is not the declared parameter name
`tokens_needed` (every call site in the repository passes `num_tokens`). -/
def acquire_kw_raises : AcquireKw → Bool
  | AcquireKw.tokens_needed => false
  | AcquireKw.num_tokens => true

/-- State of `ConcurrencyThrottler` (`concurrency_throttler.py`, `__init__`).
Python floats are modelled as rationals; wall-clock readings are passed to each
operation explicitly. -/
structure ThrottlerState where
  max_requests_per_minute : ℚ
  max_tokens_per_minute : ℚ
  rate_limit_backoff_seconds : ℚ
  available_requests : ℚ
  available_tokens : ℚ
  last_update_time : ℚ
  time_of_last_rate_limit_error : ℚ
deriving DecidableEq

/-- Freshly constructed throttler (`__init__`): both budgets start at their
maxima, `last_update_time` is the construction time and
`time_of_last_rate_limit_error` is `0.0`. -/
def throttler_init (max_requests max_tokens backoff t0 : ℚ) : ThrottlerState :=
  { max_requests_per_minute := max_requests
    max_tokens_per_minute := max_tokens
    rate_limit_backoff_seconds := backoff
    available_requests := max_requests
    available_tokens := max_tokens
    last_update_time := t0
    time_of_last_rate_limit_error := 0 }

/-- `ConcurrencyThrottler.refill_capacity` at wall-clock time `t`:
each budget grows by `max * elapsed / 60`, capped at the maximum. -/
def refill_capacity (s : ThrottlerState) (t : ℚ) : ThrottlerState :=
  let elapsed := t - s.last_update_time
  let req_refill := s.max_requests_per_minute * elapsed / 60
  let tok_refill := s.max_tokens_per_minute * elapsed / 60
  { s with
    last_update_time := t
    available_requests :=
      min (s.available_requests + req_refill) s.max_requests_per_minute
    available_tokens :=
      min (s.available_tokens + tok_refill) s.max_tokens_per_minute }

/-- `ConcurrencyThrottler.note_rate_limit_error` at wall-clock time `t`. -/
def note_rate_limit_error (s : ThrottlerState) (t : ℚ) : ThrottlerState :=
  { s with time_of_last_rate_limit_error := t }

/-- One iteration of the `while True` loop in `ConcurrencyThrottler.acquire`,
polled at wall-clock time `t` with cost `tokens_needed`: refill, then the
cooldown check (`continue` without granting if inside the cooldown window),
then the guarded deduction.  Returns the new state and whether the iteration
granted (i.e. whether `acquire` returned on this iteration). -/
def acquire_step (s : ThrottlerState) (t : ℚ) (tokens_needed : ℕ) :
    ThrottlerState × Bool :=
  if t - (refill_capacity s t).time_of_last_rate_limit_error <
      (refill_capacity s t).rate_limit_backoff_seconds then
    (refill_capacity s t, false)
  else if 1 ≤ (refill_capacity s t).available_requests ∧
      (tokens_needed : ℚ) ≤ (refill_capacity s t).available_tokens then
    ({ refill_capacity s t with
        available_requests := (refill_capacity s t).available_requests - 1
        available_tokens :=
          (refill_capacity s t).available_tokens - (tokens_needed : ℚ) },
      true)
  else
    (refill_capacity s t, false)

/-- An operation of the throttler interface, tagged with the wall-clock time at
which it runs: a bare `refill_capacity`, one `acquire` poll iteration with a
(non-negative, integer) token cost, or `note_rate_limit_error`. -/
inductive ThrottlerOp where
  | refill : ℚ → ThrottlerOp
  | acquire : ℚ → ℕ → ThrottlerOp
  | noteError : ℚ → ThrottlerOp

/-- Wall-clock time at which an operation runs. -/
def op_time : ThrottlerOp → ℚ
  | ThrottlerOp.refill t => t
  | ThrottlerOp.acquire t _ => t
  | ThrottlerOp.noteError t => t

/-- Run one throttler operation. -/
def run_op (s : ThrottlerState) : ThrottlerOp → ThrottlerState
  | ThrottlerOp.refill t => refill_capacity s t
  | ThrottlerOp.acquire t c => (acquire_step s t c).1
  | ThrottlerOp.noteError t => note_rate_limit_error s t

/-- Run a sequence of throttler operations. -/
def run_ops (s : ThrottlerState) (ops : List ThrottlerOp) : ThrottlerState :=
  ops.foldl run_op s

/-- A trace is valid when each operation's wall-clock reading is not earlier
than the state's `last_update_time`; this holds for any execution in which
`time.time()` is non-decreasing. -/
def valid_from (s : ThrottlerState) : List ThrottlerOp → Bool
  | [] => true
  | op :: rest =>
    decide (s.last_update_time ≤ op_time op) && valid_from (run_op s op) rest

/-- The budget invariant of the spec:
`0 ≤ availableRequests ≤ maxRequestsPerMinute`, and the same for tokens. -/
def budget_inv (s : ThrottlerState) : Prop :=
  0 ≤ s.available_requests ∧
  s.available_requests ≤ s.max_requests_per_minute ∧
  0 ≤ s.available_tokens ∧
  s.available_tokens ≤ s.max_tokens_per_minute

/-- Non-negativity of the configured per-minute maxima. -/
def rate_caps_nonneg (s : ThrottlerState) : Prop :=
  0 ≤ s.max_requests_per_minute ∧ 0 ≤ s.max_tokens_per_minute

lemma refill_budget (s : ThrottlerState) (t : ℚ) (hc : rate_caps_nonneg s)
    (hb : budget_inv s) (ht : s.last_update_time ≤ t) :
    budget_inv (refill_capacity s t) := by
  obtain ⟨hmr, hmt⟩ := hc
  obtain ⟨h1, h2, h3, h4⟩ := hb
  have helapsed : 0 ≤ t - s.last_update_time := sub_nonneg.mpr ht
  refine ⟨?_, ?_, ?_, ?_⟩
  · exact le_min
      (add_nonneg h1 (div_nonneg (mul_nonneg hmr helapsed) (by norm_num))) hmr
  · exact min_le_right _ _
  · exact le_min
      (add_nonneg h3 (div_nonneg (mul_nonneg hmt helapsed) (by norm_num))) hmt
  · exact min_le_right _ _

lemma run_op_caps (s : ThrottlerState) (op : ThrottlerOp)
    (hc : rate_caps_nonneg s) : rate_caps_nonneg (run_op s op) := by
  cases op with
  | refill t => exact hc
  | noteError t => exact hc
  | acquire t c =>
    show rate_caps_nonneg (acquire_step s t c).1
    unfold acquire_step
    split_ifs <;> exact hc

lemma run_op_budget (s : ThrottlerState) (op : ThrottlerOp)
    (hc : rate_caps_nonneg s) (hb : budget_inv s)
    (ht : s.last_update_time ≤ op_time op) : budget_inv (run_op s op) := by
  cases op with
  | refill t => exact refill_budget s t hc hb ht
  | noteError t => exact hb
  | acquire t c =>
    have hb1 : budget_inv (refill_capacity s t) := refill_budget s t hc hb ht
    show budget_inv (acquire_step s t c).1
    unfold acquire_step
    split_ifs with h1 h2
    · exact hb1
    · obtain ⟨g1, g2, g3, g4⟩ := hb1
      obtain ⟨hr1, hr2⟩ := h2
      have hcast : (0:ℚ) ≤ (c : ℚ) := Nat.cast_nonneg c
      refine ⟨?_, ?_, ?_, ?_⟩
      · show (0:ℚ) ≤ (refill_capacity s t).available_requests - 1
        linarith
      · show (refill_capacity s t).available_requests - 1 ≤
          (refill_capacity s t).max_requests_per_minute
        linarith
      · show (0:ℚ) ≤ (refill_capacity s t).available_tokens - (c : ℚ)
        linarith
      · show (refill_capacity s t).available_tokens - (c : ℚ) ≤
          (refill_capacity s t).max_tokens_per_minute
        linarith
    · exact hb1

lemma run_ops_budget (ops : List ThrottlerOp) :
    ∀ s : ThrottlerState, rate_caps_nonneg s → budget_inv s →
      valid_from s ops = true → budget_inv (run_ops s ops) := by
  induction ops with
  | nil => intro s _ hb _; exact hb
  | cons op rest ih =>
    intro s hc hb hv
    rw [valid_from, Bool.and_eq_true, decide_eq_true_eq] at hv
    have hstep := run_op_budget s op hc hb hv.1
    have hcaps := run_op_caps s op hc
    have : run_ops s (op :: rest) = run_ops (run_op s op) rest := rfl
    rw [this]
    exact ih (run_op s op) hcaps hstep hv.2

/-- C1 (invariants): for every interleaving of throttler operations — refills,
`acquire` poll iterations with non-negative integer cost, and
`note_rate_limit_error` — starting from a freshly constructed throttler with
non-negative configured rates, and run at non-decreasing wall-clock times,
the state satisfies `0 ≤ available_requests ≤ max_requests_per_minute` and
`0 ≤ available_tokens ≤ max_tokens_per_minute` after every operation. -/
theorem throttler_budget_invariant
    (max_requests max_tokens backoff t0 : ℚ) (ops : List ThrottlerOp)
    (hreq : 0 ≤ max_requests) (htok : 0 ≤ max_tokens)
    (hv : valid_from (throttler_init max_requests max_tokens backoff t0) ops
      = true) :
    budget_inv (run_ops (throttler_init max_requests max_tokens backoff t0)
      ops) :=
  run_ops_budget ops _ ⟨hreq, htok⟩ ⟨hreq, le_refl _, htok, le_refl _⟩ hv

unseal Rat.add Rat.sub Rat.mul Rat.inv in
/-- Witness for C1: a concrete valid trace (refill, a granted acquire, a
rate-limit note, another refill) on a fresh throttler with rates 2 and 10,
with the hypotheses checked by evaluation and the invariant concluded from
`throttler_budget_invariant`. -/
theorem throttler_budget_invariant_check :
    (0:ℚ) ≤ 2 ∧ (0:ℚ) ≤ 10 ∧
    valid_from (throttler_init 2 10 15 0)
      [ThrottlerOp.refill 10, ThrottlerOp.acquire 20 3,
       ThrottlerOp.noteError 25, ThrottlerOp.refill 40] = true ∧
    budget_inv (run_ops (throttler_init 2 10 15 0)
      [ThrottlerOp.refill 10, ThrottlerOp.acquire 20 3,
       ThrottlerOp.noteError 25, ThrottlerOp.refill 40]) :=
  ⟨by decide, by decide, by decide,
   throttler_budget_invariant 2 10 15 0
     [ThrottlerOp.refill 10, ThrottlerOp.acquire 20 3,
      ThrottlerOp.noteError 25, ThrottlerOp.refill 40]
     (by decide) (by decide) (by decide)⟩

/-- C2 (temporal): an `acquire` poll iteration at a wall-clock time strictly
inside the cooldown window (`t − time_of_last_rate_limit_error <
rate_limit_backoff_seconds`) never grants, no matter how much budget is
available; conversely an iteration that grants must run at or after the end of
the cooldown window.  Since `acquire` returns only from a granting iteration,
no `acquire` call returns before the full cooldown has elapsed. -/
theorem acquire_cooldown_no_grant (s : ThrottlerState) (t : ℚ) (c : ℕ) :
    (t - s.time_of_last_rate_limit_error < s.rate_limit_backoff_seconds →
      (acquire_step s t c).2 = false) ∧
    ((acquire_step s t c).2 = true →
      s.time_of_last_rate_limit_error + s.rate_limit_backoff_seconds ≤ t) := by
  have herr : (refill_capacity s t).time_of_last_rate_limit_error
      = s.time_of_last_rate_limit_error := rfl
  have hback : (refill_capacity s t).rate_limit_backoff_seconds
      = s.rate_limit_backoff_seconds := rfl
  constructor
  · intro h
    have h' : t - (refill_capacity s t).time_of_last_rate_limit_error <
        (refill_capacity s t).rate_limit_backoff_seconds := by
      rw [herr, hback]; exact h
    simp [acquire_step, h']
  · intro hg
    by_cases h1 : t - (refill_capacity s t).time_of_last_rate_limit_error <
        (refill_capacity s t).rate_limit_backoff_seconds
    · simp [acquire_step, h1] at hg
    · rw [herr, hback] at h1
      linarith [not_lt.mp h1]

unseal Rat.add Rat.sub Rat.mul Rat.inv in
/-- Witness for C2: after a rate-limit error at time 2 on a fresh throttler
with a 15-second backoff, the poll at time 10 (inside the window, with full
budget available) does not grant; concluded from `acquire_cooldown_no_grant`. -/
theorem acquire_cooldown_no_grant_check :
    ((10:ℚ) - (note_rate_limit_error (throttler_init 5 100 15 0)
        2).time_of_last_rate_limit_error <
      (note_rate_limit_error (throttler_init 5 100 15 0)
        2).rate_limit_backoff_seconds ∧
    (acquire_step (note_rate_limit_error (throttler_init 5 100 15 0) 2)
      10 1).2 = false) ∧
    ((acquire_step (throttler_init 5 100 15 0) 20 1).2 = true ∧
    (throttler_init 5 100 15 0).time_of_last_rate_limit_error +
      (throttler_init 5 100 15 0).rate_limit_backoff_seconds ≤ 20) :=
  ⟨⟨by decide,
    (acquire_cooldown_no_grant (note_rate_limit_error
      (throttler_init 5 100 15 0) 2) 10 1).1 (by decide)⟩,
   ⟨by decide,
    (acquire_cooldown_no_grant (throttler_init 5 100 15 0) 20 1).2
      (by decide)⟩⟩

/-- C10 (termination/resources): an `acquire` poll iteration refills first, and
the refill caps `available_tokens` at `max_tokens_per_minute` (and
`available_requests` at `max_requests_per_minute`), so when the requested cost
exceeds `max_tokens_per_minute` no iteration can ever grant — the poll loop
repeats forever; and any iteration that does grant forces
`tokens_needed ≤ max_tokens_per_minute` and `1 ≤ max_requests_per_minute`,
so `acquire` can terminate only under those conditions. -/
theorem acquire_step_requires_feasible_cost (s : ThrottlerState) (t : ℚ)
    (c : ℕ) :
    (s.max_tokens_per_minute < (c : ℚ) → (acquire_step s t c).2 = false) ∧
    ((acquire_step s t c).2 = true →
      (c : ℚ) ≤ s.max_tokens_per_minute ∧ 1 ≤ s.max_requests_per_minute) := by
  have htok : (refill_capacity s t).available_tokens ≤
      s.max_tokens_per_minute := min_le_right _ _
  have hreq : (refill_capacity s t).available_requests ≤
      s.max_requests_per_minute := min_le_right _ _
  constructor
  · intro hc
    by_cases h1 : t - (refill_capacity s t).time_of_last_rate_limit_error <
        (refill_capacity s t).rate_limit_backoff_seconds
    · simp [acquire_step, h1]
    · have h2 : ¬(1 ≤ (refill_capacity s t).available_requests ∧
          (c : ℚ) ≤ (refill_capacity s t).available_tokens) := by
        rintro ⟨-, hct⟩
        linarith
      simp [acquire_step, h1, h2]
  · intro hg
    by_cases h1 : t - (refill_capacity s t).time_of_last_rate_limit_error <
        (refill_capacity s t).rate_limit_backoff_seconds
    · simp [acquire_step, h1] at hg
    · by_cases h2 : 1 ≤ (refill_capacity s t).available_requests ∧
          (c : ℚ) ≤ (refill_capacity s t).available_tokens
      · exact ⟨le_trans h2.2 htok, le_trans h2.1 hreq⟩
      · simp [acquire_step, h1, h2] at hg

unseal Rat.add Rat.sub Rat.mul Rat.inv in
/-- Witness for C10: on a fresh throttler with `max_tokens_per_minute = 100`, a
poll asking for 200 tokens does not grant, while a poll (after the cooldown)
asking for 5 tokens does, forcing `5 ≤ 100` and `1 ≤ 5`; both conclusions come
from `acquire_step_requires_feasible_cost`. -/
theorem acquire_step_requires_feasible_cost_check :
    (throttler_init 5 100 15 0).max_tokens_per_minute < ((200:ℕ) : ℚ) ∧
    (acquire_step (throttler_init 5 100 15 0) 20 200).2 = false ∧
    (acquire_step (throttler_init 5 100 15 0) 20 5).2 = true ∧
    (((5:ℕ) : ℚ) ≤ (throttler_init 5 100 15 0).max_tokens_per_minute ∧
      1 ≤ (throttler_init 5 100 15 0).max_requests_per_minute) :=
  ⟨by decide,
   (acquire_step_requires_feasible_cost (throttler_init 5 100 15 0) 20
     200).1 (by decide),
   by decide,
   (acquire_step_requires_feasible_cost (throttler_init 5 100 15 0) 20
     5).2 (by decide)⟩

/-- Provider behaviour for one DeFiLlama fetch attempt
(`fetch_defillama_pools_async`): an HTTP 429, a 2xx payload whose `data` field
parses to a list of pools (abstracted by their indices), a 2xx payload without
the expected structure (which raises `ValueError`), or a network/HTTP error. -/
inductive DLResp where
  | status429 : DLResp
  | okData : List ℕ → DLResp
  | badShape : DLResp
  | netError : DLResp

/-- Observable outcome of a run of the `fetch_defillama_pools_async` retry
loop: how many loop iterations (attempts) ran, how many times
`note_rate_limit_error` was called on the supplied throttler, the returned
pool list, and whether an exception escaped the function (it never does). -/
structure FetchTrace where
  attempts : ℕ
  note_calls : ℕ
  result : List ℕ
  raised : Bool
deriving DecidableEq

/-- The `while attempt <= MAX_FETCH_RETRIES` retry loop of
`fetch_defillama_pools_async`, fuelled by the remaining attempts.  Each
iteration first evaluates `concurrency.acquire(kw=50)` when a throttler is
supplied; if that call raises `TypeError` (wrong keyword), control jumps to the
generic `except` branch, which sleeps/doubles the backoff only while
`attempt < maxRetries` and always increments `attempt`.  A 429 response calls
`note_rate_limit_error` (when a throttler is supplied) and takes the same
backoff path; a good payload returns it; a bad payload or network error takes
the `except` path.  Exhausting all attempts returns the initial empty
`raw_pools` without raising. -/
def fetch_defillama_go (provider : ℕ → DLResp) (kw : AcquireKw)
    (withThrottler : Bool) (maxRetries : ℕ) :
    ℕ → ℕ → ℕ → ℕ → ℕ → FetchTrace
  | 0, _, _, notes, iters => ⟨iters, notes, [], false⟩
  | fuel+1, attempt, backoff, notes, iters =>
    if withThrottler && acquire_kw_raises kw then
      fetch_defillama_go provider kw withThrottler maxRetries fuel (attempt+1)
        (if attempt < maxRetries then min (backoff * 2) 30 else backoff)
        notes (iters+1)
    else
      match provider attempt with
      | DLResp.status429 =>
        fetch_defillama_go provider kw withThrottler maxRetries fuel
          (attempt+1)
          (if attempt < maxRetries then min (backoff * 2) 30 else backoff)
          (if withThrottler then notes + 1 else notes) (iters+1)
      | DLResp.okData pools => ⟨iters+1, notes, pools, false⟩
      | DLResp.badShape =>
        fetch_defillama_go provider kw withThrottler maxRetries fuel
          (attempt+1)
          (if attempt < maxRetries then min (backoff * 2) 30 else backoff)
          notes (iters+1)
      | DLResp.netError =>
        fetch_defillama_go provider kw withThrottler maxRetries fuel
          (attempt+1)
          (if attempt < maxRetries then min (backoff * 2) 30 else backoff)
          notes (iters+1)

/-- `fetch_defillama_pools_async` with caching disabled: the loop starts at
`attempt = 1` with `backoff = 2`, and the source's call site passes the
keyword `num_tokens` to `acquire` (whose parameter is `tokens_needed`). -/
def fetch_defillama_pools_async (provider : ℕ → DLResp)
    (withThrottler : Bool) (maxRetries : ℕ) : FetchTrace :=
  fetch_defillama_go provider AcquireKw.num_tokens withThrottler maxRetries
    maxRetries 1 2 0 0

/-- Modelled from the spec: the same retry loop with the `acquire` call bound
as documented in `ConcurrencyThrottler`'s own usage notes
(`acquire(tokens_needed=...)`), i.e. without the call-site `TypeError`; this is
the behaviour §8 of the spec describes for a provider answering 429. -/
def fetch_defillama_pools_intended (provider : ℕ → DLResp)
    (withThrottler : Bool) (maxRetries : ℕ) : FetchTrace :=
  fetch_defillama_go provider AcquireKw.tokens_needed withThrottler maxRetries
    maxRetries 1 2 0 0

/-- A provider that answers HTTP 429 on every attempt. -/
def all_429 : ℕ → DLResp := fun _ => DLResp.status429

/-- C3 (error handling): with `maxFetchRetries = 3`, a supplied throttler and a
provider answering 429 on every attempt, the DeFiLlama fetcher as written
performs 3 attempts and returns the empty list without raising — but calls
`note_rate_limit_error` 0 times, not 3: every `acquire(num_tokens=50)` call
raises `TypeError` (the parameter is named `tokens_needed`), which the generic
`except` branch swallows before the HTTP request — and hence the 429 branch —
is ever reached.  The intended loop (acquire bound correctly, as the spec and
the throttler's docstring describe) reports 3 attempts and 3 cooldown notes. -/
theorem fetch_defillama_429_trace :
    fetch_defillama_pools_async all_429 true 3 =
      ⟨3, 0, [], false⟩ ∧
    fetch_defillama_pools_intended all_429 true 3 =
      ⟨3, 3, [], false⟩ := by
  constructor <;> rfl

/-- Configured risk thresholds (`RISK_CFG` in `risk_agent.py`). -/
structure RiskConfig where
  minLiquidityUsd : ℚ
  minVolume24hUsd : ℚ
  minUniqueHolders : ℕ
  maxTopHoldersPercent : ℚ

/-- Outcome of one provider HTTP call inside a risk sub-check: a 429, a parsed
payload, or any other exception (network error, non-2xx, parse failure). -/
inductive HttpResult (α : Type) where
  | status429 : HttpResult α
  | ok : α → HttpResult α
  | exn : HttpResult α

/-- One DexScreener pair record, reduced to the fields the checks read. -/
structure DexPair where
  liquidity_usd : ℚ
  volume_h24 : ℚ

/-- Provider environment for one `assess_token` run: whether a Moralis API key
is configured, and the four provider responses the sub-checks would receive. -/
structure RiskEnv where
  hasMoralisKey : Bool
  dexscreener : HttpResult (List DexPair)
  etherscan_supply : HttpResult ℚ
  moralis_holders : HttpResult ℕ
  moralis_top_holders : HttpResult (List ℚ)

/-- Running maximum over a list, starting from `0.0`, as computed by the
`for p in pairs` loops of `_check_liquidity` and `_check_volume`. -/
def running_max (xs : List ℚ) : ℚ :=
  xs.foldl (fun m v => if m < v then v else m) 0

/-- `RiskAgent._check_liquidity`: the whole body sits in a `try` whose
`except` returns `False`.  The first statement executed is
`concurrency.acquire(num_tokens=30)`, which raises `TypeError`, so the check
returns `False` before any HTTP traffic; the remaining branches embed the
code that follows the call. -/
def check_liquidity (cfg : RiskConfig) (env : RiskEnv) : Bool :=
  if acquire_kw_raises AcquireKw.num_tokens then false
  else
    match env.dexscreener with
    | HttpResult.status429 => false
    | HttpResult.exn => false
    | HttpResult.ok pairs =>
      decide (cfg.minLiquidityUsd ≤ running_max (pairs.map DexPair.liquidity_usd))

/-- `RiskAgent._check_volume`: same shape as `_check_liquidity`, reading the
24-hour volume field and threshold. -/
def check_volume (cfg : RiskConfig) (env : RiskEnv) : Bool :=
  if acquire_kw_raises AcquireKw.num_tokens then false
  else
    match env.dexscreener with
    | HttpResult.status429 => false
    | HttpResult.exn => false
    | HttpResult.ok pairs =>
      decide (cfg.minVolume24hUsd ≤ running_max (pairs.map DexPair.volume_h24))

/-- `RiskAgent._fetch_holders_count_etherscan`: returns 0 without a Moralis
key; its own `try` first runs `acquire(num_tokens=10)` (a `TypeError`, caught,
returning 0); a 429 or any error also yields 0, a payload yields its `total`. -/
def fetch_holders_count (env : RiskEnv) : ℕ :=
  if !env.hasMoralisKey then 0
  else if acquire_kw_raises AcquireKw.num_tokens then 0
  else
    match env.moralis_holders with
    | HttpResult.status429 => 0
    | HttpResult.exn => 0
    | HttpResult.ok n => n

/-- The module-level `_fetch_top_10_percent` function: falls back to `100.0`
without a Moralis key, on its own `acquire(num_tokens=10)` `TypeError`, on a
429, on any error, on an empty holder list, or on non-positive supply;
otherwise sorts balances descending, sums the top 10 and scales by
`100 / total_supply`. -/
def fetch_top_10_percent (env : RiskEnv) (total_supply : ℚ) : ℚ :=
  if !env.hasMoralisKey then 100
  else if acquire_kw_raises AcquireKw.num_tokens then 100
  else
    match env.moralis_top_holders with
    | HttpResult.status429 => 100
    | HttpResult.exn => 100
    | HttpResult.ok items =>
      if items.isEmpty then 100
      else
        if total_supply ≤ 0 then 100
        else
          ((List.insertionSort (fun a b : ℚ => b ≤ a) items).take 10).foldl
            (fun acc b => acc + b) 0 / total_supply * 100

/-- Whether `_fetch_top_10_percent` is an attribute of `RiskAgent`: it is not —
the `async def` is written at module level (dedented out of the class, with a
stray `self` parameter), so `self._fetch_top_10_percent` raises
`AttributeError`. -/
def riskagent_has_top10_method : Bool := false

/-- `RiskAgent._check_holder_distribution`: the whole body sits in a `try`
whose `except` returns `False`.  Its first statement runs
`acquire(num_tokens=10)` (a `TypeError`), so it returns `False` immediately;
the embedded continuation mirrors the remaining source: non-positive supply
fails, a low holder count fails, then the `self._fetch_top_10_percent` lookup
raises `AttributeError` (also caught), and otherwise the top-10 percentage is
compared against the threshold. -/
def check_holder_distribution (cfg : RiskConfig) (env : RiskEnv) : Bool :=
  if acquire_kw_raises AcquireKw.num_tokens then false
  else
    match env.etherscan_supply with
    | HttpResult.status429 => false
    | HttpResult.exn => false
    | HttpResult.ok total_supply =>
      if total_supply ≤ 0 then false
      else if fetch_holders_count env < cfg.minUniqueHolders then false
      else if !riskagent_has_top10_method then false
      else if cfg.maxTopHoldersPercent < fetch_top_10_percent env total_supply
        then false
      else true

/-- `RiskAgent.assess_token`: gathers the three sub-checks (none of which can
raise — each catches all of its own exceptions and returns a boolean), then
returns `False` unless `all(results)`; its surrounding `try/except` returns
`False` on any error, so the function itself never raises. -/
def assess_token (cfg : RiskConfig) (env : RiskEnv) : Bool :=
  if !([check_liquidity cfg env, check_volume cfg env,
        check_holder_distribution cfg env].all id) then false
  else true

/-- C4 (error handling): `assess_token` returns `True` exactly when all three
sub-checks return `True` — equivalently, any single sub-check returning
`False` forces the overall result to `False` — and it fails closed: when every
provider interaction errors, the result is `False`.  The embedding is total,
reflecting that `assess_token` never raises. -/
theorem assess_token_combination :
    (∀ (cfg : RiskConfig) (env : RiskEnv),
      assess_token cfg env =
        (check_liquidity cfg env && check_volume cfg env &&
          check_holder_distribution cfg env)) ∧
    (∀ (cfg : RiskConfig) (hk : Bool),
      assess_token cfg
        ⟨hk, HttpResult.exn, HttpResult.exn, HttpResult.exn, HttpResult.exn⟩
        = false) := by
  constructor
  · intro cfg env
    cases hl : check_liquidity cfg env <;>
      cases hv : check_volume cfg env <;>
        cases hh : check_holder_distribution cfg env <;>
          simp [assess_token, hl, hv, hh]
  · intro cfg hk
    rfl

/-- Modelled from the spec: the holders-count fetch as intended, i.e. with the
`acquire` call bound to its declared parameter so that no `TypeError` occurs;
the no-key, 429 and error fallbacks to 0 are kept as in the source. -/
def fetch_holders_count_spec (env : RiskEnv) : ℕ :=
  if !env.hasMoralisKey then 0
  else
    match env.moralis_holders with
    | HttpResult.status429 => 0
    | HttpResult.exn => 0
    | HttpResult.ok n => n

/-- Modelled from the spec: the top-10 percentage fetch as intended (no
`acquire` `TypeError`); sorts balances descending, sums the first 10, scales
by `100 / total_supply`, and keeps every conservative 100% fallback. -/
def fetch_top_10_percent_spec (env : RiskEnv) (total_supply : ℚ) : ℚ :=
  if !env.hasMoralisKey then 100
  else
    match env.moralis_top_holders with
    | HttpResult.status429 => 100
    | HttpResult.exn => 100
    | HttpResult.ok items =>
      if items.isEmpty then 100
      else
        if total_supply ≤ 0 then 100
        else
          ((List.insertionSort (fun a b : ℚ => b ≤ a) items).take 10).foldl
            (fun acc b => acc + b) 0 / total_supply * 100

/-- Modelled from the spec: the intended holder-distribution check of §4.4 —
the same pipeline with the two slips removed (the `acquire` keyword
`TypeError` and the dedented `_fetch_top_10_percent`): positive total supply,
holder count at least the minimum, and top-10 share at most the maximum, with
the provider fallbacks (no key / 429 / error / no data) kept as in the source. -/
def check_holder_distribution_spec (cfg : RiskConfig) (env : RiskEnv) : Bool :=
  match env.etherscan_supply with
  | HttpResult.status429 => false
  | HttpResult.exn => false
  | HttpResult.ok total_supply =>
    if total_supply ≤ 0 then false
    else if fetch_holders_count_spec env < cfg.minUniqueHolders then false
    else if cfg.maxTopHoldersPercent <
        fetch_top_10_percent_spec env total_supply then false
    else true

/-- C5 witness environment: positive supply, 600 unique holders, and twenty
equal balances of 10000 against a supply of 1000000 (the top ten hold 10%). -/
def c5_cfg : RiskConfig := ⟨50000, 20000, 500, 50⟩

/-- Provider data for the C5 scenario. -/
def c5_env : RiskEnv :=
  { hasMoralisKey := true
    dexscreener := HttpResult.ok [⟨100000, 50000⟩]
    etherscan_supply := HttpResult.ok 1000000
    moralis_holders := HttpResult.ok 600
    moralis_top_holders := HttpResult.ok (List.replicate 20 10000) }

unseal Rat.add Rat.sub Rat.mul Rat.inv in
/-- C5 (functional correctness): with positive total supply, 600 holders (above
the 500 minimum) and a top-10 share of 10% (below the 50% maximum),
`_check_holder_distribution` still returns `False`: its
`acquire(num_tokens=10)` call raises `TypeError` (the parameter is named
`tokens_needed`) and — even past that — `self._fetch_top_10_percent` raises
`AttributeError` because that function is defined at module level.  The
intended check described by the spec returns `True` on the same data, so the
claimed biconditional fails on the code. -/
theorem check_holder_distribution_divergence :
    check_holder_distribution c5_cfg c5_env = false ∧
    check_holder_distribution_spec c5_cfg c5_env = true := by
  constructor
  · rfl
  · decide

/-- The static LSD symbol set `LSD_TOKENS` of `aggregator_hpc_async.py`:
steth, reth, stmatic, seth2, ankr. -/
def LSD_TOKENS : List String :=
  [⟨['s', 't', 'e', 't', 'h']⟩, ⟨['r', 'e', 't', 'h']⟩,
   ⟨['s', 't', 'm', 'a', 't', 'i', 'c']⟩, ⟨['s', 'e', 't', 'h', '2']⟩,
   ⟨['a', 'n', 'k', 'r']⟩]

/-- The canonical chain name compared against in `augment_pool_features`. -/
def ethereum_chain : String := ⟨['e', 't', 'h', 'e', 'r', 'e', 'u', 'm']⟩

/-- `is_lsd_symbol`: membership of the lowercased symbol in `LSD_TOKENS`. -/
def is_lsd_symbol (symbol : String) : Bool :=
  LSD_TOKENS.contains symbol.toLower

/-- `get_chain_risk_factor` (`plugins/bridging/bridging_data.py`): looks up the
lowercased chain in the merged risk map (supplied here as a parameter, since
the map is loaded from a JSON config file), defaulting to `1.0`. -/
def get_chain_risk_factor (riskMap : String → Option ℚ) (chain : String) : ℚ :=
  (riskMap chain.toLower).getD 1

/-- A synergy pool record: the dict fields read and written by
`parse_defillama_data`, `augment_pool_features`, `prune_pool`,
`final_score_formula` and `rank_pools`.  Numeric data fields are rationals;
`score` lives in `ℝ` because `final_score_formula` takes a base-10 log. -/
structure Pool where
  chain : String
  symbol : String
  apy : ℚ
  tvl : ℚ
  volatility : ℚ
  is_lsd : Bool
  bridging_needed : Bool
  chain_factor : ℚ
  apy_vol_ratio : ℚ
  score : ℝ

/-- `augment_pool_features`: sets `bridging_needed` iff the chain is not
`ethereum`; sets `chain_factor` to `get_chain_risk_factor(chain) or 1.0`
(Python's `or` replaces a falsy `0.0` by `1.0`); flags `is_lsd` when the
symbol is a known LSD (keeping an existing flag); and sets
`apy_vol_ratio = apy / volatility` when `volatility > 1e-9`, else the sentinel
`999.0`. -/
def augment_pool_features (riskMap : String → Option ℚ) (p : Pool) : Pool :=
  { p with
    bridging_needed := p.chain != ethereum_chain
    chain_factor :=
      if get_chain_risk_factor riskMap p.chain = 0 then 1
      else get_chain_risk_factor riskMap p.chain
    is_lsd := p.is_lsd || is_lsd_symbol p.symbol
    apy_vol_ratio :=
      if (1 : ℚ)/1000000000 < p.volatility then p.apy / p.volatility
      else 999 }

/-- The three pruning thresholds read from `aggregator_hpc_config.json`. -/
structure FilterConfig where
  minApy : ℚ
  minTvl : ℚ
  maxChainFactor : ℚ

/-- `prune_pool`: discard when `apy < minApy`, or `tvl < minTvl`, or
`chain_factor > maxChainFactor`; keep otherwise. -/
def prune_pool (cfg : FilterConfig) (p : Pool) : Bool :=
  if p.apy < cfg.minApy then false
  else if p.tvl < cfg.minTvl then false
  else if cfg.maxChainFactor < p.chain_factor then false
  else true

/-- C7 (algebraic/relational): a pool is retained by `prune_pool` exactly when
`apy ≥ minApy`, `tvl ≥ minTvl` and `chain_factor ≤ maxChainFactor`; and
tightening the thresholds (raising `minApy`, raising `minTvl`, lowering
`maxChainFactor`, in any combination — in particular one at a time) never
increases the number of retained pools. -/
theorem prune_pool_iff_and_monotone :
    (∀ (cfg : FilterConfig) (p : Pool),
      prune_pool cfg p = true ↔
        (cfg.minApy ≤ p.apy ∧ cfg.minTvl ≤ p.tvl ∧
          p.chain_factor ≤ cfg.maxChainFactor)) ∧
    (∀ (cfg cfg' : FilterConfig) (ps : List Pool),
      cfg.minApy ≤ cfg'.minApy → cfg.minTvl ≤ cfg'.minTvl →
      cfg'.maxChainFactor ≤ cfg.maxChainFactor →
      (ps.filter (prune_pool cfg')).length ≤
        (ps.filter (prune_pool cfg)).length) := by
  have hiff : ∀ (cfg : FilterConfig) (p : Pool),
      prune_pool cfg p = true ↔
        (cfg.minApy ≤ p.apy ∧ cfg.minTvl ≤ p.tvl ∧
          p.chain_factor ≤ cfg.maxChainFactor) := by
    intro cfg p
    unfold prune_pool
    split_ifs with h1 h2 h3
    · exact iff_of_false (by simp) (fun h => absurd h.1 (not_le.mpr h1))
    · exact iff_of_false (by simp) (fun h => absurd h.2.1 (not_le.mpr h2))
    · exact iff_of_false (by simp) (fun h => absurd h.2.2 (not_le.mpr h3))
    · exact iff_of_true rfl ⟨not_lt.mp h1, not_lt.mp h2, not_lt.mp h3⟩
  refine ⟨hiff, fun cfg cfg' ps h1 h2 h3 => ?_⟩
  have himp : ∀ p : Pool, prune_pool cfg' p = true → prune_pool cfg p = true :=
    fun p hp => by
      have h := (hiff cfg' p).mp hp
      exact (hiff cfg p).mpr
        ⟨le_trans h1 h.1, le_trans h2 h.2.1, le_trans h.2.2 h3⟩
  exact List.Sublist.length_le (List.monotone_filter_right ps himp)

/-- A concrete pool for the C7 witness. -/
def c7_pool : Pool :=
  { chain := ethereum_chain, symbol := ethereum_chain, apy := 5,
    tvl := 2000000, volatility := 1/20, is_lsd := false,
    bridging_needed := false, chain_factor := 1, apy_vol_ratio := 100,
    score := 0 }

/-- Baseline thresholds for the C7 witness. -/
def c7_cfg : FilterConfig := ⟨1, 1000000, 2⟩

/-- Tightened thresholds for the C7 witness. -/
def c7_cfg_tight : FilterConfig := ⟨2, 1500000, 3/2⟩

unseal Rat.add Rat.sub Rat.mul Rat.inv in
/-- Witness for C7: the concrete pool is retained under the baseline
thresholds (via the biconditional), and tightening all three thresholds does
not increase the retained count on a one-pool list; both conclusions are drawn
from `prune_pool_iff_and_monotone`. -/
theorem prune_pool_iff_and_monotone_check :
    prune_pool c7_cfg c7_pool = true ∧
    c7_cfg.minApy ≤ c7_cfg_tight.minApy ∧
    c7_cfg.minTvl ≤ c7_cfg_tight.minTvl ∧
    c7_cfg_tight.maxChainFactor ≤ c7_cfg.maxChainFactor ∧
    ([c7_pool].filter (prune_pool c7_cfg_tight)).length ≤
      ([c7_pool].filter (prune_pool c7_cfg)).length :=
  ⟨(prune_pool_iff_and_monotone.1 c7_cfg c7_pool).mpr (by decide),
   by decide, by decide, by decide,
   prune_pool_iff_and_monotone.2 c7_cfg c7_cfg_tight [c7_pool]
     (by decide) (by decide) (by decide)⟩

/-- C8 (functional correctness): for every pool with `volatility = 0` the
augmenter sets `apy_vol_ratio` to exactly the sentinel `999.0` (total — no
division error is possible), and for every pool whose volatility exceeds the
`1e-9` epsilon threshold it sets `apy_vol_ratio = apy / volatility`. -/
theorem apy_vol_ratio_sentinel (riskMap : String → Option ℚ) (p : Pool) :
    (p.volatility = 0 →
      (augment_pool_features riskMap p).apy_vol_ratio = 999) ∧
    ((1 : ℚ)/1000000000 < p.volatility →
      (augment_pool_features riskMap p).apy_vol_ratio =
        p.apy / p.volatility) := by
  constructor
  · intro h
    have hneg : ¬((1 : ℚ)/1000000000 < p.volatility) := by
      rw [h]; norm_num
    show (if (1 : ℚ)/1000000000 < p.volatility then p.apy / p.volatility
      else 999) = 999
    exact if_neg hneg
  · intro h
    show (if (1 : ℚ)/1000000000 < p.volatility then p.apy / p.volatility
      else 999) = p.apy / p.volatility
    exact if_pos h

/-- Empty chain-risk map for the C8 witness. -/
def c8_risk_map : String → Option ℚ := fun _ => none

/-- A pool with zero volatility for the C8 witness. -/
def c8_pool_zero : Pool :=
  { chain := ethereum_chain, symbol := ethereum_chain, apy := 7, tvl := 0,
    volatility := 0, is_lsd := false, bridging_needed := false,
    chain_factor := 1, apy_vol_ratio := 0, score := 0 }

/-- A pool with volatility `1/10` for the C8 witness. -/
def c8_pool_pos : Pool :=
  { chain := ethereum_chain, symbol := ethereum_chain, apy := 7, tvl := 0,
    volatility := 1/10, is_lsd := false, bridging_needed := false,
    chain_factor := 1, apy_vol_ratio := 0, score := 0 }

unseal Rat.add Rat.sub Rat.mul Rat.inv in
/-- Witness for C8: the zero-volatility pool gets the exact sentinel `999` and
the positive-volatility pool gets `apy / volatility`, both concluded from
`apy_vol_ratio_sentinel` at evaluated hypotheses. -/
theorem apy_vol_ratio_sentinel_check :
    c8_pool_zero.volatility = 0 ∧
    (augment_pool_features c8_risk_map c8_pool_zero).apy_vol_ratio = 999 ∧
    (1 : ℚ)/1000000000 < c8_pool_pos.volatility ∧
    (augment_pool_features c8_risk_map c8_pool_pos).apy_vol_ratio =
      c8_pool_pos.apy / c8_pool_pos.volatility :=
  ⟨by decide,
   (apy_vol_ratio_sentinel c8_risk_map c8_pool_zero).1 (by decide),
   by decide,
   (apy_vol_ratio_sentinel c8_risk_map c8_pool_pos).2 (by decide)⟩

/-- The aggregator weights read from `aggregatorWeights` in
`aggregator_hpc_config.json` by `final_score_formula`. -/
structure AggregatorWeights where
  alpha : ℝ
  beta : ℝ
  gamma : ℝ
  delta : ℝ
  bridgingPenalty : ℝ
  lsdBridgingMultiplierPenalty : ℝ

/-- `final_score_formula`:
`score = apy − α·vol − β·(chain_factor − 1) + γ·log10(max(1, tvl))
 + δ·apy_vol_ratio − penalty`, where the penalty adds `bridgingPenalty` when
bridging is needed and additionally `lsdBridgingMultiplierPenalty` when
bridging is needed and the pool is an LSD.  `math.log10` is modelled as
`Real.logb 10`. -/
noncomputable def final_score_formula (w : AggregatorWeights) (p : Pool) : ℝ :=
  (p.apy : ℝ) - w.alpha * (p.volatility : ℝ)
    - w.beta * ((p.chain_factor : ℝ) - 1)
    + w.gamma * Real.logb 10 (max 1 (p.tvl : ℝ))
    + w.delta * (p.apy_vol_ratio : ℝ)
    - ((if p.bridging_needed then w.bridgingPenalty else 0) +
       (if p.bridging_needed && p.is_lsd then w.lsdBridgingMultiplierPenalty
        else 0))

/-- The `p["score"] = final_score_formula(p)` assignment in `rank_pools`. -/
noncomputable def set_score (w : AggregatorWeights) (p : Pool) : Pool :=
  { p with score := final_score_formula w p }

/-- The descending-score ordering used by
`pools.sort(key=lambda x: x["score"], reverse=True)`. -/
def score_desc (a b : Pool) : Prop := b.score ≤ a.score

noncomputable instance : DecidableRel score_desc :=
  fun a b => Real.decidableLE b.score a.score

instance : IsTotal Pool score_desc :=
  ⟨fun a b => le_total b.score a.score⟩

instance : IsTrans Pool score_desc :=
  ⟨fun _ _ _ hab hbc => le_trans hbc hab⟩

/-- `rank_pools`: assign each pool its score, then sort by score descending.
The trailing `reverse=True` keyword of the `sort` call is truncated in the
checked-in source mid-token; the descending direction is completed from the
function's own docstring (and §4.3 of the spec).  Python's `list.sort` is
stable, as is `List.insertionSort`. -/
noncomputable def rank_pools (w : AggregatorWeights) (ps : List Pool) :
    List Pool :=
  List.insertionSort score_desc (ps.map (set_score w))

lemma set_score_idem (w : AggregatorWeights) (p : Pool) :
    set_score w (set_score w p) = set_score w p := rfl

/-- C9 (algebraic/relational): ranking is deterministic and idempotent —
re-running the scorer/ranker on its own output changes nothing (in particular
the recomputed scores are identical, since `final_score_formula` does not read
the `score` field) — and the resulting list is sorted by score in descending
order. -/
theorem rank_pools_idempotent_sorted (w : AggregatorWeights)
    (ps : List Pool) :
    rank_pools w (rank_pools w ps) = rank_pools w ps ∧
    List.Sorted score_desc (rank_pools w ps) := by
  have hsorted : List.Sorted score_desc (rank_pools w ps) :=
    List.sorted_insertionSort score_desc (ps.map (set_score w))
  refine ⟨?_, hsorted⟩
  have hfix : ∀ q ∈ rank_pools w ps, set_score w q = q := by
    intro q hq
    rw [rank_pools, List.mem_insertionSort] at hq
    obtain ⟨p, _, rfl⟩ := List.mem_map.mp hq
    exact set_score_idem w p
  have hmap : (rank_pools w ps).map (set_score w) = rank_pools w ps := by
    rw [List.map_congr_left hfix]
    exact List.map_id _
  show List.insertionSort score_desc ((rank_pools w ps).map (set_score w)) =
    rank_pools w ps
  rw [hmap]
  exact List.Sorted.insertionSort_eq hsorted

lemma log_ten_pos : (0:ℝ) < Real.log 10 := Real.log_pos (by norm_num)

lemma logb_ten_two_gt : (59:ℝ)/196 < Real.logb 10 2 := by
  have h10 := log_ten_pos
  have key : Real.log ((10:ℝ) ^ (59:ℕ)) < Real.log ((2:ℝ) ^ (196:ℕ)) :=
    Real.log_lt_log (by positivity) (by norm_num)
  rw [Real.log_pow, Real.log_pow] at key
  rw [← Real.log_div_log, div_lt_div_iff₀ (by norm_num) h10]
  push_cast at key
  linarith

lemma logb_ten_two_lt : Real.logb 10 2 < (146:ℝ)/485 := by
  have h10 := log_ten_pos
  have key : Real.log ((2:ℝ) ^ (485:ℕ)) < Real.log ((10:ℝ) ^ (146:ℕ)) :=
    Real.log_lt_log (by positivity) (by norm_num)
  rw [Real.log_pow, Real.log_pow] at key
  rw [← Real.log_div_log, div_lt_div_iff₀ h10 (by norm_num)]
  push_cast at key
  linarith

lemma logb_two_million :
    Real.logb 10 (2000000:ℝ) = Real.logb 10 2 + 6 := by
  have h10 : Real.log 10 ≠ 0 := ne_of_gt log_ten_pos
  rw [show (2000000:ℝ) = 2 * 10 ^ (6:ℕ) by norm_num, ← Real.log_div_log,
    ← Real.log_div_log, Real.log_mul (by norm_num) (by positivity),
    Real.log_pow, add_div, mul_div_assoc, div_self h10, mul_one]
  norm_num

/-- The weights of the spec's §8 example scenario: `α=10, β=3, γ=0.8, δ=0.02`,
`bridgingPenalty=0.5` and no LSD penalty. -/
def c6_weights : AggregatorWeights := ⟨10, 3, 0.8, 0.02, 0.5, 0⟩

/-- The pool of the spec's §8 example scenario: `apy=10.0`, `tvlUsd=2000000`,
`volatility=0.05`, `chainFactor=1.3`, bridging needed, not an LSD, and
`apyVolRatio = 10 / 0.05 = 200`. -/
def c6_pool : Pool :=
  { chain := ethereum_chain, symbol := ethereum_chain, apy := 10,
    tvl := 2000000, volatility := 1/20, is_lsd := false,
    bridging_needed := true, chain_factor := 13/10, apy_vol_ratio := 200,
    score := 0 }

lemma c6_tvl_cast : ((c6_pool.tvl : ℚ) : ℝ) = 2000000 := by
  norm_num [c6_pool]

lemma c6_score_closed_form :
    final_score_formula c6_weights c6_pool =
      16.9 + 0.8 * Real.logb 10 2 := by
  unfold final_score_formula
  rw [c6_tvl_cast, show max (1:ℝ) 2000000 = 2000000 by norm_num,
    logb_two_million]
  simp only [c6_pool, c6_weights, Bool.and_false, Bool.false_eq_true,
    if_false, if_true]
  push_cast
  ring

lemma c6_tvl_term_closed_form :
    c6_weights.gamma * Real.logb 10 (max 1 (c6_pool.tvl : ℝ)) =
      4.8 + 0.8 * Real.logb 10 2 := by
  rw [c6_tvl_cast, show max (1:ℝ) 2000000 = 2000000 by norm_num,
    logb_two_million]
  simp only [c6_weights]
  ring

/-- C6 counterexample: on the spec's example pool and weights the code's
scorer does not reproduce the spec's arithmetic — the TVL term
`0.8·log10(2000000)` is below `5.045` (so it is not the claimed `5.058`) and
the total score is below `17.145` (so it is not `≈ 17.16`). -/
theorem final_score_example_not_spec_value :
    final_score_formula c6_weights c6_pool < 17.145 ∧
    c6_weights.gamma * Real.logb 10 (max 1 (c6_pool.tvl : ℝ)) < 5.045 := by
  have hub := logb_ten_two_lt
  rw [c6_score_closed_form, c6_tvl_term_closed_form]
  constructor <;> linarith

/-- C6 (numerical, amended): on the spec's example pool and weights the
scorer yields `score = 10 − 0.5 − 0.9 + 0.8·log10(2000000) + 0.02·200 − 0.5
= 16.9 + 0.8·log10 2 ≈ 17.1408`, with the intermediate TVL term
`0.8·log10(2000000) ≈ 5.0408`. -/
theorem final_score_example_value :
    (17.1408 < final_score_formula c6_weights c6_pool ∧
      final_score_formula c6_weights c6_pool < 17.1409) ∧
    (5.0408 < c6_weights.gamma * Real.logb 10 (max 1 (c6_pool.tvl : ℝ)) ∧
      c6_weights.gamma * Real.logb 10 (max 1 (c6_pool.tvl : ℝ)) < 5.0409) := by
  have hub := logb_ten_two_lt
  have hlb := logb_ten_two_gt
  rw [c6_score_closed_form, c6_tvl_term_closed_form]
  refine ⟨⟨?_, ?_⟩, ⟨?_, ?_⟩⟩ <;> linarith
